import Mathlib

/-!
Shallow embedding of the credit-ledger and token-issuance core of
`token_bot.py` (TokenGen bot).  The persistent state (the `users`,
`payments` and `token_transactions` tables of the store, plus whether the
store is reachable) is modelled as an explicit `DB` value threaded through
the handlers.  Timestamps are reduced to their UTC day index (a `Nat`),
which is the only part of a timestamp the code ever compares
(`datetime.date()` comparisons).  Random token text is irrelevant to the
ledger flows and is dropped there; the token generators themselves are
modelled separately, parametrised by an explicit stream of random choices.
-/

/-- Row of the `users` table as read and written by `token_bot.py`.
`credits` is an `Int` (the store holds a plain integer; non-negativity is a
property to be proved, not assumed).  `free_tokens_last_reset` is the UTC
day index of the stored reset timestamp.  Fields the handlers never branch
on (username, is_premium, created_at, last_active) are omitted. -/
structure UserRow where
  credits : Int
  tokens_generated : Nat
  free_tokens_used_today : Nat
  free_tokens_last_reset : Nat
deriving DecidableEq

/-- Row of the `payments` table inserted by `DatabaseManager.record_payment`
(status and payment_date omitted: the former is the constant "completed",
the latter is never read). -/
structure PaymentRow where
  stars_amount : Nat
  credits_purchased : Int
  transaction_id : String
deriving DecidableEq

/-- Row of the `token_transactions` table inserted by
`DatabaseManager.record_token_generation` (the truncated `token_preview`
string is omitted: it is derived from the random token text and never
branched on). -/
structure GenRow where
  token_type : String
  credits_used : Int
deriving DecidableEq

/-- The store state seen by one user: whether the supabase client is
configured and reachable (`up`), that user's row if it exists, and the two
append-only tables restricted to that user. -/
structure DB where
  up : Bool
  user : Option UserRow
  payments : List PaymentRow
  gens : List GenRow
deriving DecidableEq

/-- `DatabaseManager.get_user`: returns the row, or `None` when the store
is not configured / errors out or the row is absent. -/
def get_user (db : DB) : Option UserRow :=
  if db.up then db.user else none

/-- The fresh user data `DatabaseManager.create_user` inserts: zero
credits, zero counters, reset timestamp now.  When the store is down the
code instead returns a fallback dict `{telegram_id, credits: 0,
is_premium}`; every later read of the missing keys goes through
`.get(key, default)` with defaults 0 / now, so the fallback dict is
observationally this same row. -/
def freshUser (today : Nat) : UserRow :=
  { credits := 0, tokens_generated := 0,
    free_tokens_used_today := 0, free_tokens_last_reset := today }

/-- `DatabaseManager.create_user`: inserts a fresh row when the store is
up; when the store is down nothing is persisted and the fallback dict is
returned. -/
def create_user (db : DB) (today : Nat) : DB × UserRow :=
  if db.up then
    ({ db with user := some (freshUser today) }, freshUser today)
  else
    (db, freshUser today)

/-- `DatabaseManager.update_user_credits`: reads the row, writes
`credits := max(0, credits + credits_change)`, reports success; reports
failure when the store is down or the row is absent. -/
def update_user_credits (db : DB) (credits_change : Int) : DB × Bool :=
  if db.up then
    match get_user db with
    | none => (db, false)
    | some u =>
      ({ db with user := some { u with credits := max 0 (u.credits + credits_change) } }, true)
  else (db, false)

/-- `DatabaseManager.record_token_generation`: increments the user's
`tokens_generated` counter (when the row exists) and appends a
`token_transactions` row; fails only when the store is down. -/
def record_token_generation (db : DB) (token_type : String) (credits_used : Int) :
    DB × Bool :=
  if db.up then
    let db1 :=
      match get_user db with
      | some u =>
        { db with user := some { u with tokens_generated := u.tokens_generated + 1 } }
      | none => db
    ({ db1 with gens := db1.gens ++ [{ token_type := token_type, credits_used := credits_used }] },
      true)
  else (db, false)

/-- `DatabaseManager.record_payment`: appends a `payments` row
unconditionally — the code performs no lookup of an existing row with the
same transaction id. -/
def record_payment (db : DB) (stars_amount : Nat) (credits_purchased : Int)
    (transaction_id : String) : DB × Bool :=
  if db.up then
    ({ db with payments := db.payments ++
        [{ stars_amount := stars_amount, credits_purchased := credits_purchased,
           transaction_id := transaction_id }] }, true)
  else (db, false)

/-- The `TokenType` enum of `token_bot.py`. -/
inductive TokenType where
  | api_key
  | jwt
  | uuid
  | custom
  | bulk
deriving DecidableEq

namespace Pricing

/-- `Pricing.PRICES`: token type → credit cost. -/
def PRICES : TokenType → Int
  | .api_key => 5
  | .jwt => 10
  | .uuid => 3
  | .custom => 8
  | .bulk => 20

/-- `Pricing.CREDIT_PACKAGES`: the four-tier stars → credits dict. -/
def CREDIT_PACKAGES (stars : Nat) : Option Int :=
  if stars = 50 then some 100
  else if stars = 100 then some 250
  else if stars = 250 then some 750
  else if stars = 500 then some 2000
  else none

/-- `Pricing.FREE_DAILY_LIMIT`. -/
def FREE_DAILY_LIMIT : Nat := 3

end Pricing

/-- The credits a payment of `stars_amount` stars grants:
`Pricing.CREDIT_PACKAGES.get(stars_amount, stars_amount * 2)` as evaluated
in `successful_payment_handler` and `handle_buy_selection`. -/
def creditsForStars (stars_amount : Nat) : Int :=
  (Pricing.CREDIT_PACKAGES stars_amount).getD (stars_amount * 2)

/-- The read-time lazy quota reset performed identically in
`cmd_mycredits`, `handle_token_selection` and `generate_and_send_token`:
`free_tokens_used = 0 if last_reset.date() < today else stored value`. -/
def effectiveFreeUsed (u : UserRow) (today : Nat) : Nat :=
  if u.free_tokens_last_reset < today then 0 else u.free_tokens_used_today

/-- The `token_type_map` dict of `handle_token_selection`, mapping the
callback payload to the `TokenType` enum. -/
def token_type_map : String → Option TokenType
  | "api" => some .api_key
  | "jwt" => some .jwt
  | "uuid" => some .uuid
  | "custom" => some .custom
  | "bulk" => some .bulk
  | _ => none

/-- The user-visible outcome of a token-issuance request. -/
inductive Outcome where
  /-- "Invalid token type selected." / "Unknown token type". -/
  | invalidType
  /-- The "Insufficient credits!" message, reporting the needed cost and
  the current balance. -/
  | insufficient (cost balance : Int)
  /-- A customization / JWT-claims sub-dialog was shown; generation is
  deferred to the sub-dialog's own generate event. -/
  | askMore
  /-- A token was produced; `usedFree` mirrors the charge text ("Used 1
  free token" vs "Cost: n credits") and `price` the kind's credit price. -/
  | issued (usedFree : Bool) (price : Int)
  /-- The catch-all `except` branch: "Error generating token: ...". -/
  | genericError
deriving DecidableEq

/-- `generate_and_send_token`: re-reads the user (a missing row makes
`user.get(...)` raise, caught as the generic error), applies the lazy
quota reset, picks the price for the kind, then either consumes a free
token (when a free token remains and the price is at most 5) or debits the
balance via `update_user_credits`, and finally records the generation —
with `credits_used = 0 if using_free_token else credits_used`, a condition
that tests only `using_free_token`, not the branch actually taken. -/
def generate_and_send_token (db : DB) (today : Nat) (token_type : String) :
    DB × Outcome :=
  match get_user db with
  | none => (db, .genericError)
  | some u =>
    let free_tokens_used := effectiveFreeUsed u today
    let using_free_token := free_tokens_used < Pricing.FREE_DAILY_LIMIT
    match token_type_map token_type with
    | none => (db, .invalidType)
    | some tk =>
      let credits_used := Pricing.PRICES tk
      let db1 :=
        if using_free_token ∧ credits_used ≤ 5 then
          if db.up then
            { db with user := some { u with
                free_tokens_used_today := free_tokens_used + 1,
                free_tokens_last_reset := today } }
          else db
        else
          (update_user_credits db (-credits_used)).1
      let recorded := if using_free_token then 0 else credits_used
      let db2 := (record_token_generation db1 token_type recorded).1
      (db2, .issued (using_free_token ∧ credits_used ≤ 5) credits_used)

/-- `handle_token_selection`: loads (or creates) the user, maps the
callback payload to a kind, applies the lazy quota reset, and denies with
the insufficient-credits message only when the balance is below the cost
AND no free token remains; otherwise it defers to a sub-dialog for
`custom` / `jwt` and generates immediately for every other kind. -/
def handle_token_selection (db : DB) (today : Nat) (callback_data : String) :
    DB × Outcome :=
  let dbu : DB × UserRow :=
    match get_user db with
    | some u => (db, u)
    | none => create_user db today
  match token_type_map callback_data with
  | none => (dbu.1, .invalidType)
  | some tk =>
    let credits_needed := Pricing.PRICES tk
    let credits_have := dbu.2.credits
    let free_tokens_used := effectiveFreeUsed dbu.2 today
    let has_free_token := free_tokens_used < Pricing.FREE_DAILY_LIMIT
    if credits_have < credits_needed ∧ ¬ has_free_token then
      (dbu.1, .insufficient credits_needed credits_have)
    else if callback_data = "custom" ∨ callback_data = "jwt" then
      (dbu.1, .askMore)
    else
      generate_and_send_token dbu.1 today callback_data

/-- The full issuance pipeline for one request: `handle_token_selection`,
and — when a sub-dialog was shown — the sub-dialog's terminal generate
event (`handle_customization` / `handle_jwt_metadata` on "generate"),
which calls `generate_and_send_token` directly without re-checking
credits. -/
def issueFlow (db : DB) (today : Nat) (callback_data : String) : DB × Outcome :=
  let r := handle_token_selection db today callback_data
  if r.2 = Outcome.askMore then generate_and_send_token r.1 today callback_data else r

/-- The user-visible outcome of `successful_payment_handler`. -/
inductive PayMsg where
  /-- The "Payment Successful!" confirmation with the credited amount. -/
  | success (stars : Nat) (credits : Int)
  /-- "Payment received but failed to update credits." -/
  | updateFailed
deriving DecidableEq

/-- `successful_payment_handler`: maps the paid stars to credits via
`creditsForStars`, credits the balance, and records a payment row — with
no idempotency lookup of the transaction id. -/
def successful_payment_handler (db : DB) (stars_amount : Nat)
    (transaction_id : String) : DB × PayMsg :=
  let credits_purchased := creditsForStars stars_amount
  let r := update_user_credits db credits_purchased
  if r.2 then
    ((record_payment r.1 stars_amount credits_purchased transaction_id).1,
      .success stars_amount credits_purchased)
  else (r.1, .updateFailed)

/-- `cmd_start`: creates the user's account when none exists. -/
def cmd_start (db : DB) (today : Nat) : DB :=
  match get_user db with
  | some _ => db
  | none => (create_user db today).1

/-- One inbound event of the kinds the ledger claims quantify over:
account creation (`/start`), a full token-issuance request, or a payment
confirmation.  Each carries the UTC day on which it arrives. -/
inductive Op where
  | start (today : Nat)
  | select (callback_data : String) (today : Nat)
  | pay (stars : Nat) (transaction_id : String)
deriving DecidableEq

/-- State transition of one event (the message shown to the user is
projected away). -/
def step (db : DB) : Op → DB
  | .start today => cmd_start db today
  | .select cb today => (issueFlow db today cb).1
  | .pay stars txn => (successful_payment_handler db stars txn).1

/-- Run a sequence of events. -/
def runOps (db : DB) (ops : List Op) : DB :=
  ops.foldl step db

/-- The credit balance visible in the store. -/
def userCredits (db : DB) : Option Int :=
  db.user.map (fun u => u.credits)

/-- The stored free-quota counter. -/
def userFreeUsed (db : DB) : Option Nat :=
  db.user.map (fun u => u.free_tokens_used_today)

/-- Balance invariant: whatever row the store holds has a non-negative
balance (vacuously true when no row exists). -/
def balInv (db : DB) : Prop :=
  0 ≤ (userCredits db).getD 0

instance (db : DB) : Decidable (balInv db) := by
  unfold balInv; infer_instance

/-- Quota invariant: the stored free-quota counter is at most the daily
limit. -/
def freeInv (db : DB) : Prop :=
  (userFreeUsed db).getD 0 ≤ Pricing.FREE_DAILY_LIMIT

instance (db : DB) : Decidable (freeInv db) := by
  unfold freeInv; infer_instance

/-- The alphabet of `TokenGenerator.generate_api_key`:
`string.ascii_letters + string.digits + "_-"` (64 characters). -/
def api_alphabet : List Char :=
  "abcdefghijklmnopqrstuvwxyzABCDEFGHIJKLMNOPQRSTUVWXYZ0123456789_-".toList

theorem api_alphabet_length : api_alphabet.length = 64 := by decide

/-- `TokenGenerator.generate_api_key`, with `secrets.choice(alphabet)`
modelled by an explicit stream `rand` of indices into the alphabet and the
`prefix` / `suffix` arguments renamed `pre` / `suf` (Lean keywords).  The
core is `length` draws (`range(length)` is empty for a non-positive
length); a non-empty pre/suf is joined with an underscore.  The code
performs no validation and cannot fail. -/
def generate_api_key (rand : Nat → Fin 64) (length : Int) (pre suf : String) :
    String :=
  let key := String.mk ((List.range length.toNat).map fun i =>
    api_alphabet.get (Fin.cast api_alphabet_length.symm (rand i)))
  let key := if pre ≠ "" then pre ++ "_" ++ key else key
  let key := if suf ≠ "" then key ++ "_" ++ suf else key
  key

/-- The random core of an API key, before pre/suf joining (the value of
the local `key` after the `join` in the source). -/
def apiKeyCore (rand : Nat → Fin 64) (length : Int) : List Char :=
  (List.range length.toNat).map fun i =>
    api_alphabet.get (Fin.cast api_alphabet_length.symm (rand i))

/-- The API-key generator as the spec's sentence describes it, for
comparison with `generate_api_key`: identical output but "Fails only on
invalid (non-positive) length", the failure rendered as `none`. -/
def apiKeySpecRequirement (rand : Nat → Fin 64) (length : Int) (pre suf : String) :
    Option String :=
  if length ≤ 0 then none else some (generate_api_key rand length pre suf)

/-- A JWT claim value: a string, or a timestamp in seconds since an
epoch (`datetime` values in the payload). -/
inductive ClaimVal where
  | str (s : String)
  | time (t : Nat)
deriving DecidableEq

/-- A JWT payload dict, as an association list read through
`lookupClaim` (first binding wins). -/
abbrev Claims := List (String × ClaimVal)

/-- Dict lookup on a payload. -/
def lookupClaim (k : String) : Claims → Option ClaimVal
  | [] => none
  | (k', v) :: rest => if k' = k then some v else lookupClaim k rest

/-- The five standard claims `TokenGenerator.generate_jwt` writes:
issued-at now, expiry now + `expires_hours` hours (3600 s each), and the
fixed issuer / audience / subject strings. -/
def stdClaims (now : Nat) (expires_hours : Nat) : Claims :=
  [("iat", .time now),
   ("exp", .time (now + expires_hours * 3600)),
   ("iss", .str "TokenGenBot (Educational)"),
   ("aud", .str "Learning Environment"),
   ("sub", .str "sample_user")]

/-- The payload signed by `TokenGenerator.generate_jwt`:
`payload.update({...standard claims...})` — the standard claims overwrite
any caller-supplied binding of the same key, modelled by putting them
first in the first-binding-wins list.  Note the body applies NO clamping
to `expires_hours`. -/
def generate_jwt (payload : Claims) (now : Nat) (expires_hours : Nat) : Claims :=
  stdClaims now expires_hours ++ payload

/-- The expiry-hours parse of `handle_metadata_input` (the only place a
clamp exists): `min(max(1, hours), 720)`. -/
def clampExpiry (hours : Int) : Int :=
  min (max 1 hours) 720

/-- Funding decision as §4.2 step 4 of the spec states it, for comparison
with the behaviour of `handle_token_selection` / `generate_and_send_token`:
free quota when a free token remains and the kind is free-quota-eligible
(priced at most 5); else paid when the balance covers the cost; else deny
reporting cost and balance. -/
inductive SpecFunding where
  | freeQuota
  | fromBalance
  | deny (cost balance : Int)
deriving DecidableEq

/-- The spec's funding-decision algorithm (§4.2 step 4), stated on the
same account data the code reads. -/
def specFundingDecision (u : UserRow) (today : Nat) (tk : TokenType) : SpecFunding :=
  let cost := Pricing.PRICES tk
  if effectiveFreeUsed u today < Pricing.FREE_DAILY_LIMIT ∧ cost ≤ 5 then
    .freeQuota
  else if cost ≤ u.credits then
    .fromBalance
  else
    .deny cost u.credits

/-- A one-row test store: a user with the given balance, free-counter and
reset day, an empty payments table and an empty generations table. -/
def sampleUser (c : Int) (f r : Nat) : UserRow :=
  { credits := c, tokens_generated := 0, free_tokens_used_today := f,
    free_tokens_last_reset := r }

/-- A reachable store holding exactly `sampleUser c f r`. -/
def sampleDB (c : Int) (f r : Nat) : DB :=
  { up := true, user := some (sampleUser c f r), payments := [], gens := [] }

theorem creditsForStars_nonneg (s : Nat) : 0 ≤ creditsForStars s := by
  unfold creditsForStars Pricing.CREDIT_PACKAGES
  split_ifs <;> simp

/-- C5: payment reconciliation grants credits by the purchase-package
table — 50 stars grant 100 credits, 100 grant 250, 250 grant 750, 500
grant 2000 — any other stars amount grants exactly stars × 2, and
`successful_payment_handler` adds exactly that grant to the balance. -/
theorem C5_purchase_package_grants :
    creditsForStars 50 = 100 ∧ creditsForStars 100 = 250 ∧
    creditsForStars 250 = 750 ∧ creditsForStars 500 = 2000 ∧
    (∀ s : Nat, s ≠ 50 → s ≠ 100 → s ≠ 250 → s ≠ 500 →
      creditsForStars s = s * 2) ∧
    (∀ (db : DB) (u : UserRow) (s : Nat) (txn : String),
      db.up = true → db.user = some u →
      userCredits (successful_payment_handler db s txn).1 =
        some (max 0 (u.credits + creditsForStars s))) := by
  refine ⟨by decide, by decide, by decide, by decide, ?_, ?_⟩
  · intro s h50 h100 h250 h500
    unfold creditsForStars Pricing.CREDIT_PACKAGES
    simp [h50, h100, h250, h500]
  · intro db u s txn hup huser
    simp [successful_payment_handler, update_user_credits, get_user, record_payment,
      userCredits, hup, huser]

/-- Witness for C5 at the spec's own example: an unknown stars amount 77
grants 77 × 2 = 154 credits, both in the table lookup and through the
payment handler. -/
theorem C5_purchase_package_grants_witness :
    creditsForStars 77 = 77 * 2 ∧
    userCredits (successful_payment_handler (sampleDB 0 0 0) 77 "txn-77").1 =
      some (max 0 ((0 : Int) + creditsForStars 77)) := by
  refine ⟨C5_purchase_package_grants.2.2.2.2.1 77 (by decide) (by decide) (by decide)
    (by decide), ?_⟩
  exact C5_purchase_package_grants.2.2.2.2.2 _ (sampleUser 0 0 0) 77 "txn-77" rfl rfl

/-- C10: with the store up and the row present, `update_user_credits`
reports success and sets the balance to `max 0 (old + change)`; in
particular an over-debit does not fail and leaves the balance at exactly
0. -/
theorem C10_update_user_credits_clamps (db : DB) (u : UserRow) (d : Int)
    (hup : db.up = true) (huser : db.user = some u) :
    (update_user_credits db d).2 = true ∧
    userCredits (update_user_credits db d).1 = some (max 0 (u.credits + d)) ∧
    (u.credits + d < 0 → userCredits (update_user_credits db d).1 = some 0) := by
  refine ⟨?_, ?_, ?_⟩ <;>
    simp [update_user_credits, get_user, userCredits, hup, huser]
  omega

/-- Witness for C10: debiting 9 from a balance of 5 succeeds and leaves
the balance at 0. -/
theorem C10_update_user_credits_clamps_witness :
    (update_user_credits (sampleDB 5 0 0) (-9)).2 = true ∧
    userCredits (update_user_credits (sampleDB 5 0 0) (-9)).1 =
      some (max 0 ((5 : Int) + -9)) ∧
    ((5 : Int) + -9 < 0 →
      userCredits (update_user_credits (sampleDB 5 0 0) (-9)).1 = some 0) := by
  exact C10_update_user_credits_clamps _ (sampleUser 5 0 0) (-9) rfl rfl

/-- C1 counterexample: delivering the same payment confirmation (50 stars,
transaction id "txn-1") twice to a zero-balance account leaves the balance
at 200, not at the single grant of 100 — the balance increase for one
transaction id happens twice, not once. -/
theorem C1_counterexample_double_processing :
    userCredits (successful_payment_handler
      (successful_payment_handler (sampleDB 0 0 0) 50 "txn-1").1 50 "txn-1").1 =
      some 200 ∧
    (200 : Int) ≠ 100 := by
  exact ⟨by decide, by decide⟩

/-- C1 amended: `successful_payment_handler` performs no idempotency
lookup of the transaction id — every delivery of a confirmation with the
same id increases the balance by the grant again and appends another
PaymentRecord with that id. -/
theorem C1_reconcile_not_idempotent (db : DB) (u : UserRow) (s : Nat) (txn : String)
    (hup : db.up = true) (huser : db.user = some u) (hpos : 0 ≤ u.credits) :
    userCredits (successful_payment_handler db s txn).1 =
      some (u.credits + creditsForStars s) ∧
    userCredits (successful_payment_handler
        (successful_payment_handler db s txn).1 s txn).1 =
      some (u.credits + creditsForStars s + creditsForStars s) ∧
    (successful_payment_handler
        (successful_payment_handler db s txn).1 s txn).1.payments =
      db.payments ++
        [{ stars_amount := s, credits_purchased := creditsForStars s,
           transaction_id := txn },
         { stars_amount := s, credits_purchased := creditsForStars s,
           transaction_id := txn }] := by
  have hg := creditsForStars_nonneg s
  have h1 : max 0 (u.credits + creditsForStars s) = u.credits + creditsForStars s := by
    omega
  have h2 : max 0 (u.credits + creditsForStars s + creditsForStars s) =
      u.credits + creditsForStars s + creditsForStars s := by omega
  have e1 : successful_payment_handler db s txn =
      ({ db with
         user := some { u with credits := u.credits + creditsForStars s },
         payments := db.payments ++
           [{ stars_amount := s, credits_purchased := creditsForStars s,
              transaction_id := txn }] },
       PayMsg.success s (creditsForStars s)) := by
    simp [successful_payment_handler, update_user_credits, get_user, record_payment,
      hup, huser, h1]
  rw [e1]
  simp [successful_payment_handler, update_user_credits, get_user, record_payment,
    userCredits, hup, h2]

/-- Witness for C1's amended statement: two deliveries of a 50-star
confirmation with id "txn-1" to a fresh account yield 100 then 200
credits and two identical payment rows. -/
theorem C1_reconcile_not_idempotent_witness :
    userCredits (successful_payment_handler (sampleDB 0 0 0) 50 "txn-1").1 =
      some ((0 : Int) + creditsForStars 50) ∧
    userCredits (successful_payment_handler
        (successful_payment_handler (sampleDB 0 0 0) 50 "txn-1").1 50 "txn-1").1 =
      some ((0 : Int) + creditsForStars 50 + creditsForStars 50) ∧
    (successful_payment_handler
        (successful_payment_handler (sampleDB 0 0 0) 50 "txn-1").1 50 "txn-1").1.payments =
      (sampleDB 0 0 0).payments ++
        [{ stars_amount := 50, credits_purchased := creditsForStars 50,
           transaction_id := "txn-1" },
         { stars_amount := 50, credits_purchased := creditsForStars 50,
           transaction_id := "txn-1" }] := by
  exact C1_reconcile_not_idempotent _ (sampleUser 0 0 0) 50 "txn-1" rfl rfl (by decide)

/-- C6 counterexample: `generate_jwt` applies no clamp to the requested
expiry — at 1000 requested hours the expiry claim is issue-time + 1000
hours (3600000 s), not issue-time + clamp(1000, 1, 720) = 720 hours
(2592000 s). -/
theorem C6_counterexample_no_clamp :
    lookupClaim "exp" (generate_jwt [] 0 1000) = some (ClaimVal.time 3600000) ∧
    (3600000 : Nat) ≠ 0 + 720 * 3600 := by
  exact ⟨by decide, by decide⟩

/-- C6 amended: `generate_jwt` embeds the caller's claims (standard keys
overridden) plus issued-at, expiry, issuer, audience and subject, with
expiry equal to issue-time plus exactly the requested hours — unclamped;
the [1, 720] clamp exists only in `handle_metadata_input`'s parse of a
user-entered expiry (`clampExpiry`). -/
theorem C6_generate_jwt_payload (payload : Claims) (now h : Nat) :
    lookupClaim "iat" (generate_jwt payload now h) = some (ClaimVal.time now) ∧
    lookupClaim "exp" (generate_jwt payload now h) =
      some (ClaimVal.time (now + h * 3600)) ∧
    lookupClaim "iss" (generate_jwt payload now h) =
      some (ClaimVal.str "TokenGenBot (Educational)") ∧
    lookupClaim "aud" (generate_jwt payload now h) =
      some (ClaimVal.str "Learning Environment") ∧
    lookupClaim "sub" (generate_jwt payload now h) =
      some (ClaimVal.str "sample_user") ∧
    (∀ k, k ∉ ["iat", "exp", "iss", "aud", "sub"] →
      lookupClaim k (generate_jwt payload now h) = lookupClaim k payload) ∧
    (∀ t : Int, 1 ≤ clampExpiry t ∧ clampExpiry t ≤ 720) := by
  refine ⟨rfl, rfl, rfl, rfl, rfl, ?_, ?_⟩
  · intro k hk
    simp only [List.mem_cons, List.not_mem_nil, or_false, not_or] at hk
    obtain ⟨h1, h2, h3, h4, h5⟩ := hk
    simp [generate_jwt, stdClaims, lookupClaim, Ne.symm h1, Ne.symm h2, Ne.symm h3,
      Ne.symm h4, Ne.symm h5]
  · intro t
    constructor <;> simp [clampExpiry]

/-- Witness for C6's amended statement: a payload carrying a role claim,
issued at time 0 for 24 hours, has expiry 24 × 3600 and keeps the role
claim. -/
theorem C6_generate_jwt_payload_witness :
    lookupClaim "exp" (generate_jwt [("role", ClaimVal.str "admin")] 0 24) =
      some (ClaimVal.time (0 + 24 * 3600)) ∧
    lookupClaim "role" (generate_jwt [("role", ClaimVal.str "admin")] 0 24) =
      lookupClaim "role" [("role", ClaimVal.str "admin")] := by
  have h := C6_generate_jwt_payload [("role", ClaimVal.str "admin")] 0 24
  exact ⟨h.2.1, h.2.2.2.2.2.1 "role" (by decide)⟩

/-- C8 counterexample: `generate_api_key` does not fail on a non-positive
length — at length −1 it returns the empty string (an empty random core),
whereas the claimed behaviour (`apiKeySpecRequirement`) fails there. -/
theorem C8_counterexample_no_failure :
    generate_api_key (fun _ => (0 : Fin 64)) (-1) "" "" = "" ∧
    apiKeySpecRequirement (fun _ => (0 : Fin 64)) (-1) "" "" = none := by
  exact ⟨rfl, rfl⟩

/-- C8 amended: `generate_api_key` never fails: for every length it
returns a core of `length.toNat` characters drawn from
letters+digits+underscore+hyphen (so an empty core when the length is
non-positive), with a non-empty prefix or suffix joined to the core by an
underscore and an empty one omitted. -/
theorem C8_generate_api_key_total (rand : Nat → Fin 64) (length : Int)
    (pre suf : String) :
    (apiKeyCore rand length).length = length.toNat ∧
    (∀ c ∈ apiKeyCore rand length, c ∈ api_alphabet) ∧
    (length ≤ 0 → apiKeyCore rand length = []) ∧
    (pre = "" → suf = "" →
      generate_api_key rand length pre suf = String.mk (apiKeyCore rand length)) ∧
    (pre ≠ "" → suf = "" →
      generate_api_key rand length pre suf =
        pre ++ "_" ++ String.mk (apiKeyCore rand length)) ∧
    (pre = "" → suf ≠ "" →
      generate_api_key rand length pre suf =
        String.mk (apiKeyCore rand length) ++ "_" ++ suf) ∧
    (pre ≠ "" → suf ≠ "" →
      generate_api_key rand length pre suf =
        pre ++ "_" ++ String.mk (apiKeyCore rand length) ++ "_" ++ suf) := by
  refine ⟨?_, ?_, ?_, ?_, ?_, ?_, ?_⟩
  · simp [apiKeyCore]
  · intro c hc
    simp only [apiKeyCore, List.mem_map, List.mem_range] at hc
    obtain ⟨i, _, rfl⟩ := hc
    exact List.get_mem _ _ _
  · intro hle
    simp [apiKeyCore, Int.toNat_eq_zero.mpr hle]
  · intro hp hs
    simp [generate_api_key, apiKeyCore, hp, hs]
  · intro hp hs
    simp [generate_api_key, apiKeyCore, hp, hs, String.append_assoc]
  · intro hp hs
    simp [generate_api_key, apiKeyCore, hp, hs, String.append_assoc]
  · intro hp hs
    simp [generate_api_key, apiKeyCore, hp, hs, String.append_assoc]

/-- Witness for C8's amended statement: length 5 with prefix "sk" and
empty suffix gives a 5-character core joined as sk_core. -/
theorem C8_generate_api_key_total_witness :
    (apiKeyCore (fun _ => (0 : Fin 64)) 5).length = (5 : Int).toNat ∧
    ('a' ∈ apiKeyCore (fun _ => (0 : Fin 64)) 5 → 'a' ∈ api_alphabet) ∧
    generate_api_key (fun _ => (0 : Fin 64)) 5 "sk" "" =
      "sk" ++ "_" ++ String.mk (apiKeyCore (fun _ => (0 : Fin 64)) 5) := by
  have h := C8_generate_api_key_total (fun _ => (0 : Fin 64)) 5 "sk" ""
  exact ⟨h.1, h.2.1 'a', h.2.2.2.2.1 (by decide) rfl⟩

/-- C7 (the code's slip, evaluated at a failing input): a JWT issuance for
a user with balance 20 and an untouched free quota takes the paid path —
the balance drops from 20 to 10, i.e. 10 credits are actually charged —
yet the appended GenerationRecord stores credits_used = 0, because
`record_token_generation` receives `0 if using_free_token else
credits_used`, a condition that ignores the price-at-most-5 eligibility
half of the funding branch actually taken. -/
theorem C7_record_misreports_paid_charge :
    (issueFlow (sampleDB 20 0 10) 10 "jwt").2 = Outcome.issued false 10 ∧
    userCredits (issueFlow (sampleDB 20 0 10) 10 "jwt").1 = some 10 ∧
    (issueFlow (sampleDB 20 0 10) 10 "jwt").1.gens =
      [{ token_type := "jwt", credits_used := 0 }] ∧
    (0 : Int) ≠ 20 - 10 := by
  exact ⟨by decide, by decide, by decide, by decide⟩

theorem get_user_eq_some {db : DB} {u : UserRow} (h : get_user db = some u) :
    db.up = true ∧ db.user = some u := by
  unfold get_user at h
  cases hup : db.up with
  | false => rw [hup] at h; simp at h
  | true => rw [hup] at h; simp at h; exact ⟨rfl, h⟩

theorem generate_not_askMore (db : DB) (today : Nat) (tt : String) :
    (generate_and_send_token db today tt).2 ≠ Outcome.askMore := by
  unfold generate_and_send_token
  cases hg : get_user db with
  | none => simp
  | some u =>
    cases hm : token_type_map tt with
    | none => simp
    | some tk => simp

/-- Full characterization of `generate_and_send_token` when the store is
up and the row exists: free path iff a free token remains AND the price is
at most 5 (then no debit, counter bumped, reset stamped), else a clamped
debit of the price; the recorded credits_used tests only the free-token
condition. -/
theorem generate_spec (db : DB) (u : UserRow) (today : Nat) (tt : String)
    (tk : TokenType) (hup : db.up = true) (huser : db.user = some u)
    (hmap : token_type_map tt = some tk) :
    generate_and_send_token db today tt =
      (if effectiveFreeUsed u today < Pricing.FREE_DAILY_LIMIT ∧
          Pricing.PRICES tk ≤ 5 then
        ({ db with
           user := some { credits := u.credits,
                          tokens_generated := u.tokens_generated + 1,
                          free_tokens_used_today := effectiveFreeUsed u today + 1,
                          free_tokens_last_reset := today },
           gens := db.gens ++ [{ token_type := tt, credits_used := 0 }] },
         Outcome.issued true (Pricing.PRICES tk))
      else
        ({ db with
           user := some { u with
                          credits := max 0 (u.credits + -Pricing.PRICES tk),
                          tokens_generated := u.tokens_generated + 1 },
           gens := db.gens ++
             [{ token_type := tt,
                credits_used :=
                  if effectiveFreeUsed u today < Pricing.FREE_DAILY_LIMIT then 0
                  else Pricing.PRICES tk }] },
         Outcome.issued false (Pricing.PRICES tk))) := by
  unfold generate_and_send_token record_token_generation update_user_credits get_user
  by_cases hfree : effectiveFreeUsed u today < Pricing.FREE_DAILY_LIMIT ∧
      Pricing.PRICES tk ≤ 5
  · simp [hup, huser, hmap, hfree]
  · rw [if_neg hfree]
    by_cases hu : effectiveFreeUsed u today < Pricing.FREE_DAILY_LIMIT
    · have hc5 : ¬ Pricing.PRICES tk ≤ 5 := fun hc => hfree ⟨hu, hc⟩
      simp [hup, huser, hmap, hu, hc5]
    · simp [hup, huser, hmap, hu]

/-- When the selection check passes (either the balance covers the cost or
a free token remains), the full pipeline reduces to
`generate_and_send_token`, for every kind — the sub-dialog kinds merely
defer the same call. -/
theorem issueFlow_passes (db : DB) (u : UserRow) (today : Nat)
    (cb : String) (tk : TokenType) (hup : db.up = true) (huser : db.user = some u)
    (hmap : token_type_map cb = some tk)
    (hpass : ¬ (u.credits < Pricing.PRICES tk ∧
      ¬ effectiveFreeUsed u today < Pricing.FREE_DAILY_LIMIT)) :
    issueFlow db today cb = generate_and_send_token db today cb := by
  have hg : get_user db = some u := by simp [get_user, hup, huser]
  have hpass2 : ¬ (u.credits < Pricing.PRICES tk ∧
      Pricing.FREE_DAILY_LIMIT ≤ effectiveFreeUsed u today) :=
    fun h => hpass ⟨h.1, not_lt.mpr h.2⟩
  unfold issueFlow handle_token_selection
  by_cases hcj : cb = "custom" ∨ cb = "jwt"
  · simp [hg, hmap, hpass2, hcj]
  · simp [hg, hmap, hpass2, hcj, generate_not_askMore db today cb]

/-- The denial branch of `handle_token_selection`: reached exactly when
the balance is below the cost AND no free token remains; nothing is
mutated. -/
theorem issueFlow_denies (db : DB) (u : UserRow) (today : Nat)
    (cb : String) (tk : TokenType) (hup : db.up = true) (huser : db.user = some u)
    (hmap : token_type_map cb = some tk)
    (hlow : u.credits < Pricing.PRICES tk)
    (hnofree : ¬ effectiveFreeUsed u today < Pricing.FREE_DAILY_LIMIT) :
    issueFlow db today cb =
      (db, Outcome.insufficient (Pricing.PRICES tk) u.credits) := by
  have hg : get_user db = some u := by simp [get_user, hup, huser]
  unfold issueFlow handle_token_selection
  simp [hg, hmap, hlow, hnofree]

/-- C2 counterexample: a user with balance 0, free quota untouched,
requesting a JWT (cost 10, not free-quota-eligible since 10 > 5): the
spec's algorithm denies with insufficient credits (cost 10, balance 0),
but the code issues the token, leaving the balance clamped at 0 — the
denial branch is unreachable while a free token remains, whatever the
kind. -/
theorem C2_counterexample_no_denial :
    specFundingDecision (sampleUser 0 0 10) 10 TokenType.jwt =
      SpecFunding.deny 10 0 ∧
    (issueFlow (sampleDB 0 0 10) 10 "jwt").2 = Outcome.issued false 10 ∧
    (issueFlow (sampleDB 0 0 10) 10 "jwt").2 ≠ Outcome.insufficient 10 0 ∧
    userCredits (issueFlow (sampleDB 0 0 10) 10 "jwt").1 = some 0 := by
  exact ⟨by decide, by decide, by decide, by decide⟩

/-- C2 amended: the code's funding decision is — free quota when a free
token remains AND the price is at most 5 (charge 0, counter bumped);
otherwise a balance debit of exactly the cost when the balance covers it;
the insufficient-credits denial (with cost and balance, nothing mutated)
only when the balance is short AND no free token remains; and when a free
token remains but the kind is not free-eligible and the balance is short,
the code does NOT deny — it issues and clamps the balance at 0. -/
theorem C2_funding_decision (db : DB) (u : UserRow) (today : Nat) (cb : String)
    (tk : TokenType) (hup : db.up = true) (huser : db.user = some u)
    (hmap : token_type_map cb = some tk) :
    (effectiveFreeUsed u today < Pricing.FREE_DAILY_LIMIT → Pricing.PRICES tk ≤ 5 →
      (issueFlow db today cb).2 = Outcome.issued true (Pricing.PRICES tk) ∧
      userCredits (issueFlow db today cb).1 = some u.credits ∧
      userFreeUsed (issueFlow db today cb).1 =
        some (effectiveFreeUsed u today + 1)) ∧
    (¬ (effectiveFreeUsed u today < Pricing.FREE_DAILY_LIMIT ∧
        Pricing.PRICES tk ≤ 5) →
      Pricing.PRICES tk ≤ u.credits →
      (issueFlow db today cb).2 = Outcome.issued false (Pricing.PRICES tk) ∧
      userCredits (issueFlow db today cb).1 =
        some (u.credits - Pricing.PRICES tk)) ∧
    (¬ effectiveFreeUsed u today < Pricing.FREE_DAILY_LIMIT →
      u.credits < Pricing.PRICES tk →
      issueFlow db today cb =
        (db, Outcome.insufficient (Pricing.PRICES tk) u.credits)) ∧
    (effectiveFreeUsed u today < Pricing.FREE_DAILY_LIMIT →
      ¬ Pricing.PRICES tk ≤ 5 → u.credits < Pricing.PRICES tk →
      (issueFlow db today cb).2 = Outcome.issued false (Pricing.PRICES tk) ∧
      userCredits (issueFlow db today cb).1 = some 0) := by
  refine ⟨?_, ?_, ?_, ?_⟩
  · intro hfree hc5
    have hpass : ¬ (u.credits < Pricing.PRICES tk ∧
        ¬ effectiveFreeUsed u today < Pricing.FREE_DAILY_LIMIT) :=
      fun h => h.2 hfree
    rw [issueFlow_passes db u today cb tk hup huser hmap hpass,
        generate_spec db u today cb tk hup huser hmap, if_pos ⟨hfree, hc5⟩]
    simp [userCredits, userFreeUsed]
  · intro hnand hge
    have hpass : ¬ (u.credits < Pricing.PRICES tk ∧
        ¬ effectiveFreeUsed u today < Pricing.FREE_DAILY_LIMIT) :=
      fun h => absurd hge (not_le.mpr h.1)
    rw [issueFlow_passes db u today cb tk hup huser hmap hpass,
        generate_spec db u today cb tk hup huser hmap, if_neg hnand]
    refine ⟨rfl, ?_⟩
    simp [userCredits]
    omega
  · intro hnofree hlow
    exact issueFlow_denies db u today cb tk hup huser hmap hlow hnofree
  · intro hfree hc5 hlow
    have hpass : ¬ (u.credits < Pricing.PRICES tk ∧
        ¬ effectiveFreeUsed u today < Pricing.FREE_DAILY_LIMIT) :=
      fun h => h.2 hfree
    rw [issueFlow_passes db u today cb tk hup huser hmap hpass,
        generate_spec db u today cb tk hup huser hmap,
        if_neg (fun h => hc5 h.2)]
    refine ⟨rfl, ?_⟩
    simp [userCredits]
    omega

/-- Witness for C2's amended statement at the spec's §8 scenario: balance
12, free quota exhausted, a custom token costing 8 is funded from the
balance leaving 4. -/
theorem C2_funding_decision_witness :
    (issueFlow (sampleDB 12 3 10) 10 "custom").2 =
      Outcome.issued false (Pricing.PRICES TokenType.custom) ∧
    userCredits (issueFlow (sampleDB 12 3 10) 10 "custom").1 =
      some ((12 : Int) - Pricing.PRICES TokenType.custom) := by
  have h := C2_funding_decision (sampleDB 12 3 10) (sampleUser 12 3 10) 10 "custom"
    TokenType.custom rfl rfl rfl
  exact h.2.1 (by decide) (by decide)

/-- C9 counterexample: with the store unavailable, an API-key request ends
in the catch-all "Error generating token" outcome — a generic exception
message, not a distinguishable retryable store-unavailable failure. -/
theorem C9_counterexample_generic_error :
    (issueFlow { up := false, user := none, payments := [], gens := [] } 5 "api").2 =
      Outcome.genericError := by
  decide

/-- C9 amended: when the store is unavailable, an issuance request is
never denied with insufficient credits (the selection check passes on the
zero-credit fallback account, whose untouched free quota counts as
available); but no distinguishable store-unavailable outcome is surfaced
either — the generation step dereferences the missing row and ends in the
generic error message (or the invalid-type message for an unknown kind). -/
theorem C9_store_down_generic_failure (db : DB) (today : Nat) (cb : String)
    (hdown : db.up = false) :
    ((issueFlow db today cb).2 = Outcome.genericError ∨
      (issueFlow db today cb).2 = Outcome.invalidType) ∧
    (∀ c b : Int, (issueFlow db today cb).2 ≠ Outcome.insufficient c b) := by
  have hg : get_user db = none := by simp [get_user, hdown]
  unfold issueFlow handle_token_selection generate_and_send_token create_user
  cases hm : token_type_map cb with
  | none => simp [hg, hm, hdown]
  | some tk =>
    have heff : effectiveFreeUsed (freshUser today) today = 0 := by
      simp [effectiveFreeUsed, freshUser]
    by_cases hcj : cb = "custom" ∨ cb = "jwt"
    · simp [hg, hm, hdown, heff, hcj, Pricing.FREE_DAILY_LIMIT]
    · simp [hg, hm, hdown, heff, hcj, Pricing.FREE_DAILY_LIMIT]

/-- Witness for C9's amended statement: a UUID request against a down
store gets the generic error, not an insufficient-credits denial. -/
theorem C9_store_down_generic_failure_witness :
    ((issueFlow { up := false, user := none, payments := [], gens := [] } 5 "uuid").2 =
        Outcome.genericError ∨
      (issueFlow { up := false, user := none, payments := [], gens := [] } 5 "uuid").2 =
        Outcome.invalidType) ∧
    (issueFlow { up := false, user := none, payments := [], gens := [] } 5 "uuid").2 ≠
      Outcome.insufficient 3 0 := by
  have h := C9_store_down_generic_failure
    { up := false, user := none, payments := [], gens := [] } 5 "uuid" rfl
  exact ⟨h.1, h.2 3 0⟩

theorem balInv_create_user (db : DB) (today : Nat) (h : balInv db) :
    balInv (create_user db today).1 := by
  unfold create_user
  split
  · simp [balInv, userCredits, freshUser]
  · exact h

theorem balInv_update_user_credits (db : DB) (d : Int) (h : balInv db) :
    balInv (update_user_credits db d).1 := by
  unfold update_user_credits
  cases hup : db.up with
  | false => simpa [hup] using h
  | true =>
    cases hg : get_user db with
    | none => simpa [hup, hg] using h
    | some u => simp [hup, hg, balInv, userCredits]

theorem balInv_record_payment (db : DB) (s : Nat) (c : Int) (t : String)
    (h : balInv db) : balInv (record_payment db s c t).1 := by
  unfold record_payment
  split
  · simpa [balInv, userCredits] using h
  · exact h

theorem balInv_record_token_generation (db : DB) (tt : String) (c : Int)
    (h : balInv db) : balInv (record_token_generation db tt c).1 := by
  unfold record_token_generation
  cases hup : db.up with
  | false => simpa [hup] using h
  | true =>
    cases hg : get_user db with
    | none => simpa [hup, hg] using h
    | some u =>
      simpa [hup, hg, balInv, userCredits, (get_user_eq_some hg).2] using h

theorem balInv_generate (db : DB) (today : Nat) (tt : String) (h : balInv db) :
    balInv (generate_and_send_token db today tt).1 := by
  cases hg : get_user db with
  | none =>
    unfold generate_and_send_token
    rw [hg]
    exact h
  | some u =>
    obtain ⟨hup, huser⟩ := get_user_eq_some hg
    cases hm : token_type_map tt with
    | none =>
      unfold generate_and_send_token
      rw [hg]
      simp only [hm]
      exact h
    | some tk =>
      rw [generate_spec db u today tt tk hup huser hm]
      have h0 : 0 ≤ u.credits := by simpa [balInv, userCredits, huser] using h
      split
      · simp [balInv, userCredits, h0]
      · simp [balInv, userCredits]

theorem balInv_handle (db : DB) (today : Nat) (cb : String) (h : balInv db) :
    balInv (handle_token_selection db today cb).1 := by
  unfold handle_token_selection
  cases hg : get_user db with
  | some u =>
    simp only [hg]
    cases hm : token_type_map cb with
    | none => exact h
    | some tk =>
      simp only [hm]
      split
      · exact h
      · split
        · exact h
        · exact balInv_generate db today cb h
  | none =>
    simp only [hg]
    have h1 : balInv (create_user db today).1 := balInv_create_user db today h
    cases hm : token_type_map cb with
    | none => exact h1
    | some tk =>
      simp only [hm]
      split
      · exact h1
      · split
        · exact h1
        · exact balInv_generate _ today cb h1

theorem balInv_issueFlow (db : DB) (today : Nat) (cb : String) (h : balInv db) :
    balInv (issueFlow db today cb).1 := by
  unfold issueFlow
  dsimp only
  split
  · exact balInv_generate _ today cb (balInv_handle db today cb h)
  · exact balInv_handle db today cb h

theorem balInv_pay (db : DB) (s : Nat) (txn : String) (h : balInv db) :
    balInv (successful_payment_handler db s txn).1 := by
  unfold successful_payment_handler
  have h1 : balInv (update_user_credits db (creditsForStars s)).1 :=
    balInv_update_user_credits db _ h
  dsimp only
  split
  · exact balInv_record_payment _ _ _ _ h1
  · exact h1

theorem balInv_cmd_start (db : DB) (today : Nat) (h : balInv db) :
    balInv (cmd_start db today) := by
  unfold cmd_start
  cases hg : get_user db with
  | none =>
    simp only [hg]
    exact balInv_create_user db today h
  | some u =>
    simp only [hg]
    exact h

theorem balInv_step (db : DB) (op : Op) (h : balInv db) : balInv (step db op) := by
  cases op with
  | start today => exact balInv_cmd_start db today h
  | select cb today => exact balInv_issueFlow db today cb h
  | pay s txn => exact balInv_pay db s txn h

/-- C3: starting from any store whose row (if any) has a non-negative
balance — in particular a fresh or empty store — every sequence of account
creations, token issuances (any funding source) and payment
reconciliations keeps the balance a non-negative integer. -/
theorem C3_balance_nonneg (db : DB) (ops : List Op) (h : balInv db) :
    balInv (runOps db ops) := by
  induction ops generalizing db with
  | nil => exact h
  | cons op rest ih =>
    rw [runOps, List.foldl_cons]
    exact ih _ (balInv_step db op h)

/-- Witness for C3: a mixed sequence of payments, issuances of every
funding shape and an account creation on a small store keeps the balance
non-negative. -/
theorem C3_balance_nonneg_witness :
    balInv (runOps (sampleDB 5 0 0)
      [Op.pay 50 "t1", Op.select "jwt" 1, Op.select "api" 1, Op.pay 77 "t1",
       Op.select "bulk" 2, Op.select "custom" 2, Op.start 3,
       Op.select "uuid" 3]) := by
  exact C3_balance_nonneg _ _ (by decide)

theorem freeInv_create_user (db : DB) (today : Nat) (h : freeInv db) :
    freeInv (create_user db today).1 := by
  unfold create_user
  split
  · simp [freeInv, userFreeUsed, freshUser, Pricing.FREE_DAILY_LIMIT]
  · exact h

theorem freeInv_update_user_credits (db : DB) (d : Int) (h : freeInv db) :
    freeInv (update_user_credits db d).1 := by
  unfold update_user_credits
  cases hup : db.up with
  | false => simpa [hup] using h
  | true =>
    cases hg : get_user db with
    | none => simpa [hup, hg] using h
    | some u =>
      simpa [hup, hg, freeInv, userFreeUsed, (get_user_eq_some hg).2] using h

theorem freeInv_record_payment (db : DB) (s : Nat) (c : Int) (t : String)
    (h : freeInv db) : freeInv (record_payment db s c t).1 := by
  unfold record_payment
  split
  · simpa [freeInv, userFreeUsed] using h
  · exact h

theorem freeInv_record_token_generation (db : DB) (tt : String) (c : Int)
    (h : freeInv db) : freeInv (record_token_generation db tt c).1 := by
  unfold record_token_generation
  cases hup : db.up with
  | false => simpa [hup] using h
  | true =>
    cases hg : get_user db with
    | none => simpa [hup, hg] using h
    | some u =>
      simpa [hup, hg, freeInv, userFreeUsed, (get_user_eq_some hg).2] using h

theorem freeInv_generate (db : DB) (today : Nat) (tt : String) (h : freeInv db) :
    freeInv (generate_and_send_token db today tt).1 := by
  cases hg : get_user db with
  | none =>
    unfold generate_and_send_token
    rw [hg]
    exact h
  | some u =>
    obtain ⟨hup, huser⟩ := get_user_eq_some hg
    cases hm : token_type_map tt with
    | none =>
      unfold generate_and_send_token
      rw [hg]
      simp only [hm]
      exact h
    | some tk =>
      rw [generate_spec db u today tt tk hup huser hm]
      split
      next hc =>
        simp only [freeInv, userFreeUsed]
        simp
        omega
      next hc =>
        simpa [freeInv, userFreeUsed, huser] using h

theorem freeInv_handle (db : DB) (today : Nat) (cb : String) (h : freeInv db) :
    freeInv (handle_token_selection db today cb).1 := by
  unfold handle_token_selection
  cases hg : get_user db with
  | some u =>
    simp only [hg]
    cases hm : token_type_map cb with
    | none => exact h
    | some tk =>
      simp only [hm]
      split
      · exact h
      · split
        · exact h
        · exact freeInv_generate db today cb h
  | none =>
    simp only [hg]
    have h1 : freeInv (create_user db today).1 := freeInv_create_user db today h
    cases hm : token_type_map cb with
    | none => exact h1
    | some tk =>
      simp only [hm]
      split
      · exact h1
      · split
        · exact h1
        · exact freeInv_generate _ today cb h1

theorem freeInv_issueFlow (db : DB) (today : Nat) (cb : String) (h : freeInv db) :
    freeInv (issueFlow db today cb).1 := by
  unfold issueFlow
  dsimp only
  split
  · exact freeInv_generate _ today cb (freeInv_handle db today cb h)
  · exact freeInv_handle db today cb h

theorem freeInv_pay (db : DB) (s : Nat) (txn : String) (h : freeInv db) :
    freeInv (successful_payment_handler db s txn).1 := by
  unfold successful_payment_handler
  have h1 : freeInv (update_user_credits db (creditsForStars s)).1 :=
    freeInv_update_user_credits db _ h
  dsimp only
  split
  · exact freeInv_record_payment _ _ _ _ h1
  · exact h1

theorem freeInv_cmd_start (db : DB) (today : Nat) (h : freeInv db) :
    freeInv (cmd_start db today) := by
  unfold cmd_start
  cases hg : get_user db with
  | none =>
    simp only [hg]
    exact freeInv_create_user db today h
  | some u =>
    simp only [hg]
    exact h

theorem freeInv_step (db : DB) (op : Op) (h : freeInv db) : freeInv (step db op) := by
  cases op with
  | start today => exact freeInv_cmd_start db today h
  | select cb today => exact freeInv_issueFlow db today cb h
  | pay s txn => exact freeInv_pay db s txn h

/-- C4: starting from any store whose row (if any) has a free-quota
counter within the daily limit of 3 — in particular a fresh store — every
sequence of operations keeps the stored counter at most 3 (the free path
writes effective-used + 1 only when effective-used < 3); and the lazy
read-time reset makes the effective free-quota-used-today exactly 0
whenever the stored reset day precedes the operation's day. -/
theorem C4_free_quota_cap (db : DB) (ops : List Op) (h : freeInv db) :
    freeInv (runOps db ops) ∧
    (∀ (u : UserRow) (d : Nat), u.free_tokens_last_reset < d →
      effectiveFreeUsed u d = 0) := by
  constructor
  · induction ops generalizing db with
    | nil => exact h
    | cons op rest ih =>
      rw [runOps, List.foldl_cons]
      exact ih _ (freeInv_step db op h)
  · intro u d hd
    simp [effectiveFreeUsed, hd]

/-- Witness for C4: four same-day free-eligible requests on a fresh store
leave the counter at the limit, and a counter of 3 stamped on day 0 reads
as effectively 0 on day 1. -/
theorem C4_free_quota_cap_witness :
    (freeInv (runOps (sampleDB 0 0 1)
      [Op.select "api" 1, Op.select "uuid" 1, Op.select "api" 1,
       Op.select "uuid" 1]) ∧
    (∀ (u : UserRow) (d : Nat), u.free_tokens_last_reset < d →
      effectiveFreeUsed u d = 0)) ∧
    effectiveFreeUsed (sampleUser 0 3 0) 1 = 0 := by
  have h := C4_free_quota_cap (sampleDB 0 0 1)
    [Op.select "api" 1, Op.select "uuid" 1, Op.select "api" 1, Op.select "uuid" 1]
    (by decide)
  exact ⟨h, h.2 (sampleUser 0 3 0) 1 (by decide)⟩
